import Mathlib

/-!
# CloudShop-Lite AI-Ops: verification of the self-heal engine and intent router

Shallow embedding of the decision logic of `src/aiops-bot/app.py` and of the
tool-facing wrapper `src/aiops-mcp-server/server.py`.

External collaborators (the CloudWatch Logs backend and the `kubectl`
subprocess) are modelled as oracles supplied through an environment record:
each oracle gives the observable outcome of one remote call.  Machine strings
are Lean `String`s, counts are `Nat` (CloudWatch `stats count()` projections
are non-negative integers, and Python's `int(...)` is the identity on them),
Python `None` is `Option.none`, and a Python function that can raise is
embedded as `Except String`.

The spec's CamelCase status names map to the code's literal strings:
`NoActionNeeded` is `"no_action_needed"`, `Completed` is `"completed"`, and
`CompletedWithErrorsStillPresent` is `"completed_but_errors_still_present"`.
-/

/-- A CloudWatch Logs Insights query outcome, as returned by
`get_query_results` and passed through `_run_logs_query` (app.py:33-49):
a `status` string and a list of result rows, each row an ordered list of
field/value pairs.  Field values that the claims inspect are the `count()`
projections, hence `Nat`. -/
structure QueryResult where
  status : String
  results : List (List (String × Nat))
deriving DecidableEq

/-- The terminal-status test in `_run_logs_query`'s poll loop (app.py:47):
`res["status"] in ("Complete", "Failed", "Cancelled")`. -/
def isTerminalStatus (s : String) : Bool :=
  s == "Complete" || s == "Failed" || s == "Cancelled"

/-- Python `dict.get` over a row built by `{f["field"]: f["value"] for f in r}`
(`_results_to_rows`, app.py:52-57).  A duplicated field keeps the last
occurrence, hence the reversed search. -/
def rowGet (row : List (String × Nat)) (k : String) : Option Nat :=
  (row.reverse.find? (fun p => p.1 == k)).map (fun p => p.2)

/-- Per-service count extraction in `error_summary` (app.py:146):
`int(rows[0].get("errors", 0)) if rows else 0`. -/
def svcErrors (res : QueryResult) : Nat :=
  match res.results with
  | [] => 0
  | row :: _ => (rowGet row "errors").getD 0

/-- The fixed service set of `error_summary` (app.py:134). -/
def services : List String := ["catalog", "orders", "users"]

/-- The per-service loop body of `error_summary` (app.py:137-146), over an
oracle giving the outcome of each service's `_run_logs_query` call: the query
either returns a `QueryResult` or raises.  The services are queried in list
order and a raised exception propagates immediately (the loop has no
try/except), exactly as in the Python `for` loop. -/
def summarize (backend : String → Except String QueryResult) :
    List String → Except String (List (String × Nat))
  | [] => Except.ok []
  | svc :: rest =>
    match backend svc with
    | Except.error e => Except.error e
    | Except.ok res =>
      match summarize backend rest with
      | Except.error e => Except.error e
      | Except.ok tail => Except.ok ((svc, svcErrors res) :: tail)

/-- The JSON object returned by `GET /logs/error_summary` (app.py:148):
`{"lookback_minutes": minutes, "summary": summary}`. -/
structure ErrorSummaryResp where
  lookback_minutes : Nat
  summary : List (String × Nat)
deriving DecidableEq

/-- `error_summary` (app.py:132-148): the Error Summary Aggregator.  The
oracle abstracts the per-service `_run_logs_query` call for the given
lookback window. -/
def error_summary (backend : String → Except String QueryResult)
    (minutes : Nat) : Except String ErrorSummaryResp :=
  match summarize backend services with
  | Except.error e => Except.error e
  | Except.ok s => Except.ok ⟨minutes, s⟩

/-- `True` exactly when the embedded Python call raised. -/
def exceptFailed {α : Type} : Except String α → Bool
  | Except.error _ => true
  | Except.ok _ => false

/-- Outcome of one `subprocess.run(["kubectl"] ++ args, ...)` invocation:
either the command ran (any exit code) or the invocation itself raised
(`_run_kubectl`, app.py:60-81). -/
inductive ExecOutcome where
  | ran (returncode : Int) (stdout stderr : String)
  | failed (error : String)
deriving DecidableEq

/-- The structured dict `_run_kubectl` returns: `{cmd, returncode, stdout,
stderr}` on a completed run, `{cmd, error}` when the invocation raised. -/
structure KubectlResult where
  cmd : String
  outcome : ExecOutcome
deriving DecidableEq

/-- `_run_kubectl` (app.py:60-81) over a subprocess oracle.  It never raises:
both outcomes become data. -/
def run_kubectl (exec : List String → ExecOutcome) (args : List String) :
    KubectlResult :=
  { cmd := "kubectl " ++ String.intercalate " " args, outcome := exec args }

/-- kubectl argument vector of the restart phase (app.py:421-423). -/
def restartArgs (deployment namespc : String) : List String :=
  ["rollout", "restart", "deployment/" ++ deployment, "-n", namespc]

/-- kubectl argument vector of the rollout-wait phase (app.py:426-435). -/
def rolloutStatusArgs (deployment namespc : String) (timeout_seconds : Nat) :
    List String :=
  ["rollout", "status", "deployment/" ++ deployment, "-n", namespc,
   "--timeout=" ++ toString timeout_seconds ++ "s"]

/-- Environment of one self-heal invocation: the pre-check and post-check
aggregator backends (each a per-service query oracle) and the kubectl
subprocess oracle.  Oracles are pure functions, so the single aggregator call
of each phase is determined by the environment. -/
structure Env where
  pre : String → Except String QueryResult
  post : String → Except String QueryResult
  exec : List String → ExecOutcome

/-- `pre.get("summary", {}).get("orders", 0)` (app.py:404): the orders count
of an error-summary response, defaulting to 0 when the key is absent. -/
def ordersCount (r : ErrorSummaryResp) : Nat :=
  ((r.summary.find? (fun p => p.1 == "orders")).map (fun p => p.2)).getD 0

/-- `orders_errors_before` after the pre-check try/except (app.py:401-407):
the orders count of the pre-check summary, or `none` when the aggregator call
raised. -/
def preOrdersErrors (env : Env) (minutes : Nat) : Option Nat :=
  match error_summary env.pre minutes with
  | Except.ok pre => some (ordersCount pre)
  | Except.error _ => none

/-- `orders_errors_after` after the post-check try/except (app.py:438-444). -/
def postOrdersErrors (env : Env) (minutes : Nat) : Option Nat :=
  match error_summary env.post minutes with
  | Except.ok post => some (ordersCount post)
  | Except.error _ => none

/-- The `steps` dict of the self-heal record: each phase's entry is present
exactly when that phase ran (`steps[...] = ...` assignments in app.py). -/
structure Steps where
  pre_error_summary : Option ErrorSummaryResp := none
  pre_error_summary_error : Option String := none
  restart : Option KubectlResult := none
  rollout_status : Option KubectlResult := none
  post_error_summary : Option ErrorSummaryResp := none
  post_error_summary_error : Option String := none
deriving DecidableEq

/-- `steps` after the pre-check phase (app.py:401-407). -/
def preStepsOf (env : Env) (minutes : Nat) : Steps :=
  match error_summary env.pre minutes with
  | Except.ok pre => { pre_error_summary := some pre }
  | Except.error e => { pre_error_summary_error := some e }

/-- `steps` after the restart, rollout-wait and post-check phases
(app.py:420-444). -/
def stepsAfterRun (env : Env) (minutes : Nat) (steps0 : Steps)
    (restartRes rolloutRes : KubectlResult) : Steps :=
  match error_summary env.post minutes with
  | Except.ok post =>
    { steps0 with restart := some restartRes, rollout_status := some rolloutRes,
                  post_error_summary := some post }
  | Except.error e =>
    { steps0 with restart := some restartRes, rollout_status := some rolloutRes,
                  post_error_summary_error := some e }

/-- `final_status` computation (app.py:446-448): `"completed"` unless the
post-check count is present and positive. -/
def finalStatusOf (after : Option Nat) : String :=
  match after with
  | some n => if 0 < n then "completed_but_errors_still_present" else "completed"
  | none => "completed"

/-- The JSON record `k8s_self_heal_orders` returns (both branches); the
`reason` key exists only in the no-action branch.  The Python key
`"namespace"` is spelled `namespc` (Lean keyword). -/
structure SelfHealResp where
  status : String
  reason : Option String := none
  deployment : String
  namespc : String
  orders_errors_before : Option Nat
  orders_errors_after : Option Nat
  steps : Steps
deriving DecidableEq

/-- One external call made by the self-heal workflow, in order: an
aggregator (`error_summary`) call of the named phase, or a kubectl
invocation. -/
inductive Call where
  | errorSummaryCall (phase : String)
  | kubectl (args : List String)
deriving DecidableEq

/-- `k8s_self_heal_orders` (app.py:382-457): the Self-Heal Reconciliation
Engine, returning the response record together with the ordered list of
external calls it performed.  Python defaults: deployment
`"orders-deployment"`, namespace `"cloudshop"`, minutes 30,
timeout_seconds 120.  The guard is literally
`orders_errors_before is not None and orders_errors_before == 0`. -/
def k8s_self_heal_orders (env : Env) (deployment namespc : String)
    (minutes timeout_seconds : Nat) : SelfHealResp × List Call :=
  let steps0 := preStepsOf env minutes
  let before := preOrdersErrors env minutes
  if before = some 0 then
    ({ status := "no_action_needed",
       reason := some "Orders service has 0 errors in the last period.",
       deployment := deployment, namespc := namespc,
       orders_errors_before := before, orders_errors_after := before,
       steps := steps0 },
     [Call.errorSummaryCall "pre"])
  else
    let restartRes := run_kubectl env.exec (restartArgs deployment namespc)
    let rolloutRes := run_kubectl env.exec
      (rolloutStatusArgs deployment namespc timeout_seconds)
    let after := postOrdersErrors env minutes
    ({ status := finalStatusOf after,
       deployment := deployment, namespc := namespc,
       orders_errors_before := before, orders_errors_after := after,
       steps := stepsAfterRun env minutes steps0 restartRes rolloutRes },
     [Call.errorSummaryCall "pre",
      Call.kubectl (restartArgs deployment namespc),
      Call.kubectl (rolloutStatusArgs deployment namespc timeout_seconds),
      Call.errorSummaryCall "post"])

/-! ## Concrete environments used by witnesses -/

/-- A subprocess oracle whose commands all succeed. -/
def okExec : List String → ExecOutcome := fun _ => ExecOutcome.ran 0 "" ""

/-- Backend whose every query completes with a zero count. -/
def zeroBackend : String → Except String QueryResult :=
  fun _ => Except.ok ⟨"Complete", [[("errors", 0)]]⟩

/-- Backend whose every query completes with five errors. -/
def fiveBackend : String → Except String QueryResult :=
  fun _ => Except.ok ⟨"Complete", [[("errors", 5)]]⟩

/-- Backend whose every query raises. -/
def failPre : String → Except String QueryResult :=
  fun _ => Except.error "backend down"

/-- Backend whose every query ends in terminal `Failed` status with no rows. -/
def failedStatusBackend : String → Except String QueryResult :=
  fun _ => Except.ok ⟨"Failed", []⟩

def envZero : Env := ⟨zeroBackend, zeroBackend, okExec⟩
def envFive : Env := ⟨fiveBackend, fiveBackend, okExec⟩
def envPreFail : Env := ⟨failPre, zeroBackend, okExec⟩
def envAllFail : Env := ⟨failPre, failPre, okExec⟩
def envFailedStatus : Env := ⟨failedStatusBackend, zeroBackend, okExec⟩
def envExecFail : Env :=
  ⟨fiveBackend, fiveBackend, fun _ => ExecOutcome.failed "kubectl missing"⟩

/-! ## C1 -/

/-- C1: the terminal status `no_action_needed` (`NoActionNeeded`) is returned
iff the pre-check orders error count is exactly `some 0` (zero and not null);
for every other value, including `none` (pre-check aggregator raised), the
workflow proceeds through restart, rollout-wait, and post-check. -/
theorem selfheal_noaction_iff_zero_before (env : Env) (d ns : String)
    (m t : Nat) :
    ((k8s_self_heal_orders env d ns m t).1.status = "no_action_needed" ↔
      preOrdersErrors env m = some 0)
    ∧ (preOrdersErrors env m ≠ some 0 →
        (k8s_self_heal_orders env d ns m t).2 =
          [Call.errorSummaryCall "pre",
           Call.kubectl (restartArgs d ns),
           Call.kubectl (rolloutStatusArgs d ns t),
           Call.errorSummaryCall "post"]) := by
  by_cases hb : preOrdersErrors env m = some 0
  · refine ⟨?_, fun hc => absurd hb hc⟩
    unfold k8s_self_heal_orders
    rw [if_pos hb]
    simp [hb]
  · refine ⟨?_, fun _ => ?_⟩
    · unfold k8s_self_heal_orders
      rw [if_neg hb]
      simp only
      constructor
      · intro hs
        exfalso
        unfold finalStatusOf at hs
        rcases hpost : postOrdersErrors env m with _ | n
        · rw [hpost] at hs; simp at hs
        · rw [hpost] at hs
          by_cases hn : 0 < n <;> simp [hn] at hs
      · intro h0; exact absurd h0 hb
    · unfold k8s_self_heal_orders
      rw [if_neg hb]

theorem selfheal_noaction_iff_zero_before_witness :
    (k8s_self_heal_orders envZero "orders-deployment" "cloudshop" 30 120).1.status
      = "no_action_needed"
    ∧ (k8s_self_heal_orders envFive "orders-deployment" "cloudshop" 30 120).2 =
        [Call.errorSummaryCall "pre",
         Call.kubectl (restartArgs "orders-deployment" "cloudshop"),
         Call.kubectl (rolloutStatusArgs "orders-deployment" "cloudshop" 120),
         Call.errorSummaryCall "post"] :=
  ⟨(selfheal_noaction_iff_zero_before envZero "orders-deployment" "cloudshop"
      30 120).1.mpr (by decide),
   (selfheal_noaction_iff_zero_before envFive "orders-deployment" "cloudshop"
      30 120).2 (by decide)⟩

/-! ## C2 -/

/-- C2: in every invocation that reaches the post-check (pre-check count not
`some 0`), `orders_errors_after` is the post-check evidence, the final status
is `"completed"` iff that evidence is absent (`none`) or zero, and it is
`"completed_but_errors_still_present"` iff the evidence is a positive count;
`none` post-check evidence is thus treated as success, asymmetrically with
the pre-check. -/
theorem selfheal_final_status_classification (env : Env) (d ns : String)
    (m t : Nat) (h : preOrdersErrors env m ≠ some 0) :
    (k8s_self_heal_orders env d ns m t).1.orders_errors_after
      = postOrdersErrors env m
    ∧ ((k8s_self_heal_orders env d ns m t).1.status = "completed" ↔
        (postOrdersErrors env m = none ∨ postOrdersErrors env m = some 0))
    ∧ ((k8s_self_heal_orders env d ns m t).1.status
          = "completed_but_errors_still_present" ↔
        ∃ n, postOrdersErrors env m = some n ∧ 0 < n) := by
  unfold k8s_self_heal_orders
  rw [if_neg h]
  refine ⟨rfl, ?_, ?_⟩ <;>
    rcases hpost : postOrdersErrors env m with _ | n <;>
      simp only [finalStatusOf, hpost]
  · simp
  · by_cases hn : 0 < n <;> simp [hn] <;> omega
  · simp
  · by_cases hn : 0 < n <;> simp [hn]

theorem selfheal_final_status_classification_witness :
    (k8s_self_heal_orders envFive "orders-deployment" "cloudshop" 30 120).1.status
      = "completed_but_errors_still_present"
    ∧ (k8s_self_heal_orders envAllFail "orders-deployment" "cloudshop" 30 120).1.status
      = "completed"
    ∧ (k8s_self_heal_orders envPreFail "orders-deployment" "cloudshop" 30 120).1.status
      = "completed" :=
  ⟨(selfheal_final_status_classification envFive "orders-deployment"
      "cloudshop" 30 120 (by decide)).2.2.mpr ⟨5, by decide, by decide⟩,
   (selfheal_final_status_classification envAllFail "orders-deployment"
      "cloudshop" 30 120 (by decide)).2.1.mpr (Or.inl (by decide)),
   (selfheal_final_status_classification envPreFail "orders-deployment"
      "cloudshop" 30 120 (by decide)).2.1.mpr (Or.inr (by decide))⟩

/-! ## C3 -/

/-- C3: when the pre-check count is not `some 0` (including `none`), the
workflow performs exactly one restart and one rollout-wait kubectl
invocation, in that order, between the pre-check and the post-check
aggregator calls; this holds for every subprocess oracle, so a non-zero exit
code or an invocation error never aborts the workflow, whose recorded steps
always retain both action outcomes. -/
theorem selfheal_restart_then_wait_then_postcheck (env : Env) (d ns : String)
    (m t : Nat) (h : preOrdersErrors env m ≠ some 0) :
    (k8s_self_heal_orders env d ns m t).2 =
      [Call.errorSummaryCall "pre",
       Call.kubectl (restartArgs d ns),
       Call.kubectl (rolloutStatusArgs d ns t),
       Call.errorSummaryCall "post"]
    ∧ (k8s_self_heal_orders env d ns m t).1.steps.restart
        = some (run_kubectl env.exec (restartArgs d ns))
    ∧ (k8s_self_heal_orders env d ns m t).1.steps.rollout_status
        = some (run_kubectl env.exec (rolloutStatusArgs d ns t)) := by
  unfold k8s_self_heal_orders
  rw [if_neg h]
  refine ⟨rfl, ?_, ?_⟩ <;>
    · simp only [stepsAfterRun]
      rcases error_summary env.post m <;> rfl

theorem selfheal_restart_then_wait_then_postcheck_witness :
    (k8s_self_heal_orders envExecFail "orders-deployment" "cloudshop" 30 120).2 =
      [Call.errorSummaryCall "pre",
       Call.kubectl (restartArgs "orders-deployment" "cloudshop"),
       Call.kubectl (rolloutStatusArgs "orders-deployment" "cloudshop" 120),
       Call.errorSummaryCall "post"]
    ∧ (k8s_self_heal_orders envExecFail "orders-deployment" "cloudshop" 30 120).1.steps.restart
        = some (run_kubectl envExecFail.exec
            (restartArgs "orders-deployment" "cloudshop")) :=
  ⟨(selfheal_restart_then_wait_then_postcheck envExecFail "orders-deployment"
      "cloudshop" 30 120 (by decide)).1,
   (selfheal_restart_then_wait_then_postcheck envExecFail "orders-deployment"
      "cloudshop" 30 120 (by decide)).2.1⟩

/-! ## C4 -/

/-- C4: when the pre-check yields exactly zero orders errors, the returned
record has status `"no_action_needed"`, `orders_errors_after` equal to
`orders_errors_before` (both `some 0`), and the only external call is the
single pre-check aggregator call: no kubectl invocation and no second
aggregator query. -/
theorem selfheal_zero_before_noop (env : Env) (d ns : String) (m t : Nat)
    (h : preOrdersErrors env m = some 0) :
    (k8s_self_heal_orders env d ns m t).1.status = "no_action_needed"
    ∧ (k8s_self_heal_orders env d ns m t).1.orders_errors_before = some 0
    ∧ (k8s_self_heal_orders env d ns m t).1.orders_errors_after
        = (k8s_self_heal_orders env d ns m t).1.orders_errors_before
    ∧ (k8s_self_heal_orders env d ns m t).2 = [Call.errorSummaryCall "pre"] := by
  unfold k8s_self_heal_orders
  rw [if_pos h]
  exact ⟨rfl, h, rfl, rfl⟩

theorem selfheal_zero_before_noop_witness :
    (k8s_self_heal_orders envZero "orders-deployment" "cloudshop" 30 120).1.status
      = "no_action_needed"
    ∧ (k8s_self_heal_orders envZero "orders-deployment" "cloudshop" 30 120).2
      = [Call.errorSummaryCall "pre"] :=
  ⟨(selfheal_zero_before_noop envZero "orders-deployment" "cloudshop" 30 120
      (by decide)).1,
   (selfheal_zero_before_noop envZero "orders-deployment" "cloudshop" 30 120
      (by decide)).2.2.2⟩

/-! ## C10 -/

/-- Spec-side restatement of the aggregator's per-service summary: one entry
per service, each service's count taken from its query result when the call
returned, used to state what a non-aborting aggregator run produces. -/
def summaryOf (backend : String → Except String QueryResult) :
    List (String × Nat) :=
  services.map (fun svc =>
    (svc, match backend svc with
          | Except.ok r => svcErrors r
          | Except.error _ => 0))

/-- Helper: when every service's query returned (no exception), the
aggregator does not abort and produces exactly the per-service counts. -/
theorem error_summary_ok_of_no_raise
    (backend : String → Except String QueryResult) (m : Nat)
    (h : ∀ svc ∈ services, exceptFailed (backend svc) = false) :
    error_summary backend m = Except.ok ⟨m, summaryOf backend⟩ := by
  have hc := h "catalog" (by simp [services])
  have ho := h "orders" (by simp [services])
  have hu := h "users" (by simp [services])
  rcases hbc : backend "catalog" with e | rc
  · rw [hbc] at hc; simp [exceptFailed] at hc
  rcases hbo : backend "orders" with e | ro
  · rw [hbo] at ho; simp [exceptFailed] at ho
  rcases hbu : backend "users" with e | ru
  · rw [hbu] at hu; simp [exceptFailed] at hu
  simp [error_summary, services, summarize, summaryOf, hbc, hbo, hbu]

/-- C10: a per-service query that reaches a terminal `Failed` or `Cancelled`
status (rather than raising), returning no result rows, is recorded by the
aggregator as a zero count, not as null; with all pre-check queries failing
that way the self-heal pre-check yields `some 0` and terminates with
`"no_action_needed"`.  Null (`none`) pre-check evidence arises exactly when
the aggregator call raises. -/
theorem failed_terminal_status_counts_zero (env : Env) (d ns : String)
    (m t : Nat)
    (h : ∀ svc ∈ services, ∃ st, env.pre svc = Except.ok ⟨st, []⟩
          ∧ (st = "Failed" ∨ st = "Cancelled")) :
    error_summary env.pre m
      = Except.ok ⟨m, [("catalog", 0), ("orders", 0), ("users", 0)]⟩
    ∧ preOrdersErrors env m = some 0
    ∧ (k8s_self_heal_orders env d ns m t).1.status = "no_action_needed"
    ∧ (∀ (env' : Env) (m' : Nat), preOrdersErrors env' m' = none ↔
          exceptFailed (error_summary env'.pre m') = true) := by
  obtain ⟨sc, hbc, -⟩ := h "catalog" (by simp [services])
  obtain ⟨so, hbo, -⟩ := h "orders" (by simp [services])
  obtain ⟨su, hbu, -⟩ := h "users" (by simp [services])
  have hsum : error_summary env.pre m
      = Except.ok ⟨m, [("catalog", 0), ("orders", 0), ("users", 0)]⟩ := by
    simp [error_summary, services, summarize, hbc, hbo, hbu, svcErrors]
  have hpre : preOrdersErrors env m = some 0 := by
    simp [preOrdersErrors, hsum, ordersCount]
  refine ⟨hsum, hpre, ?_, ?_⟩
  · unfold k8s_self_heal_orders
    rw [if_pos hpre]
  · intro env' m'
    unfold preOrdersErrors exceptFailed
    rcases error_summary env'.pre m' <;> simp

theorem failed_terminal_status_counts_zero_witness :
    error_summary envFailedStatus.pre 30
      = Except.ok ⟨30, [("catalog", 0), ("orders", 0), ("users", 0)]⟩
    ∧ (k8s_self_heal_orders envFailedStatus "orders-deployment" "cloudshop"
        30 120).1.status = "no_action_needed" :=
  ⟨(failed_terminal_status_counts_zero envFailedStatus "orders-deployment"
      "cloudshop" 30 120 (fun _ _ => ⟨"Failed", rfl, Or.inl rfl⟩)).1,
   (failed_terminal_status_counts_zero envFailedStatus "orders-deployment"
      "cloudshop" 30 120 (fun _ _ => ⟨"Failed", rfl, Or.inl rfl⟩)).2.2.1⟩

/-! ## C5 -/

/-- A backend in which exactly one service's query (catalog) raises while the
other two complete cleanly. -/
def badBackend : String → Except String QueryResult :=
  fun svc => if svc == "catalog" then Except.error "boom"
             else Except.ok ⟨"Complete", [[("errors", 0)]]⟩

/-- C5 counterexample: with a single service's log query raising (catalog)
and the other services' queries succeeding, the Router-facing aggregator
`error_summary` DOES abort the whole summary: it propagates the exception and
returns no counts at all for the other services, refuting "if the log query
for a single service fails, the aggregator does not abort the whole
summary". -/
theorem error_summary_single_failure_aborts :
    badBackend "catalog" = Except.error "boom"
    ∧ badBackend "orders" = Except.ok ⟨"Complete", [[("errors", 0)]]⟩
    ∧ badBackend "users" = Except.ok ⟨"Complete", [[("errors", 0)]]⟩
    ∧ error_summary badBackend 30 = Except.error "boom" :=
  ⟨rfl, rfl, rfl, rfl⟩

/-- C5 (amended): if every per-service query returns — even with a terminal
`Failed`/`Cancelled` status — the aggregator does not abort and returns one
count per service (the failing-status service contributing its row-derived
count, 0 when no rows); but if a single service's query raises, the exception
propagates and aborts the whole summary, and the Reconciliation Engine
records such an aborted aggregator call as null (`none`) evidence rather than
as a zero count. -/
theorem error_summary_partial_failure_policy :
    (∀ (backend : String → Except String QueryResult) (m : Nat),
        (∀ svc ∈ services, exceptFailed (backend svc) = false) →
        error_summary backend m = Except.ok ⟨m, summaryOf backend⟩
        ∧ (summaryOf backend).map Prod.fst = services)
    ∧ (∀ (env : Env) (m : Nat),
        exceptFailed (error_summary env.pre m) = true →
        preOrdersErrors env m = none) := by
  constructor
  · intro backend m h
    refine ⟨error_summary_ok_of_no_raise backend m h, ?_⟩
    simp [summaryOf, services]
  · intro env m h
    unfold preOrdersErrors
    unfold exceptFailed at h
    rcases herr : error_summary env.pre m with e | s
    · rfl
    · rw [herr] at h; simp at h

theorem error_summary_partial_failure_policy_witness :
    error_summary failedStatusBackend 30
      = Except.ok ⟨30, summaryOf failedStatusBackend⟩
    ∧ preOrdersErrors envPreFail 30 = none :=
  ⟨(error_summary_partial_failure_policy.1 failedStatusBackend 30
      (fun _ _ => rfl)).1,
   error_summary_partial_failure_policy.2 envPreFail 30 (by decide)⟩

/-! ## C6: the MCP tool-facing adapter's self-heal wrapper -/

/-- A JSON value of the `/logs/error_summary` response body as the MCP server
sees it: a number or a flat object of per-service numbers (the `summary`
sub-object). -/
inductive JsonVal where
  | num (n : Nat)
  | obj (fields : List (String × Nat))
deriving DecidableEq

/-- The top-level JSON object of `GET /logs/error_summary`: exactly the keys
`"lookback_minutes"` and `"summary"` (app.py:148). -/
def errorSummaryJson (r : ErrorSummaryResp) : List (String × JsonVal) :=
  [("lookback_minutes", JsonVal.num r.lookback_minutes),
   ("summary", JsonVal.obj r.summary)]

/-- Python dict lookup on a JSON object. -/
def jsonGet (fields : List (String × JsonVal)) (k : String) : Option JsonVal :=
  (fields.find? (fun p => p.1 == k)).map (fun p => p.2)

/-- `pre_errors.get("orders", 0)` in the MCP `self_heal_orders`
(server.py:218): a lookup of the key `"orders"` among the TOP-LEVEL keys of
the error-summary response — not inside its `summary` sub-object. -/
def mcpOrdersCount (r : ErrorSummaryResp) : JsonVal :=
  (jsonGet (errorSummaryJson r) "orders").getD (JsonVal.num 0)

/-- Python `x == 0` on a JSON value (a dict never equals 0). -/
def JsonVal.pyEqZero : JsonVal → Bool
  | JsonVal.num n => n == 0
  | JsonVal.obj _ => false

/-- Python `x > 0` on a JSON value.  The `obj` case would raise a TypeError
in Python; it is unreachable here because `"orders"` is never a top-level key
of the response, so the extracted value is always the default `num 0`. -/
def JsonVal.pyGtZero : JsonVal → Bool
  | JsonVal.num n => decide (0 < n)
  | JsonVal.obj _ => false

/-- Environment of one MCP `self_heal_orders` invocation: the outcome of each
`_get_json("/logs/error_summary", ...)` HTTP call (which raises on network
failure or a non-2xx response) and the kubectl subprocess oracle. -/
structure McpEnv where
  fetchPre : Nat → Except String ErrorSummaryResp
  fetchPost : Nat → Except String ErrorSummaryResp
  exec : List String → ExecOutcome

/-- The `steps` dict of the MCP wrapper (same keys as the bot's). -/
structure McpSteps where
  pre_error_summary : Option ErrorSummaryResp := none
  pre_error_summary_error : Option String := none
  restart : Option KubectlResult := none
  rollout_status : Option KubectlResult := none
  post_error_summary : Option ErrorSummaryResp := none
  post_error_summary_error : Option String := none
deriving DecidableEq

/-- The two distinct record shapes the MCP `self_heal_orders` returns
(server.py:224-271): the no-action branch carries only `status`, `reason`
and `details`; the run branch carries the full field set. -/
inductive McpSelfHealResp where
  | noAction (status reason : String) (details : McpSteps)
  | run (status deployment namespc : String)
        (orders_errors_before orders_errors_after : Option JsonVal)
        (steps : McpSteps)
deriving DecidableEq

/-- The `status` field of either record shape. -/
def McpSelfHealResp.statusOf : McpSelfHealResp → String
  | McpSelfHealResp.noAction s _ _ => s
  | McpSelfHealResp.run s _ _ _ _ _ => s

/-- `True` on the three-key no-action record shape. -/
def McpSelfHealResp.isNoAction : McpSelfHealResp → Bool
  | McpSelfHealResp.noAction _ _ _ => true
  | McpSelfHealResp.run _ _ _ _ _ _ => false

/-- `self_heal_orders` of the MCP server (server.py:194-271).  Structure
mirrors the bot's engine, but the pre/post counts are read with
`resp.get("orders", 0)` on the top-level response object, and the no-action
branch returns `{"status", "reason", "details"}` only. -/
def self_heal_orders (env : McpEnv) (deployment namespc : String)
    (minutes timeout_seconds : Nat) : McpSelfHealResp :=
  let steps0 : McpSteps :=
    match env.fetchPre minutes with
    | Except.ok pre => { pre_error_summary := some pre }
    | Except.error e => { pre_error_summary_error := some e }
  let before : Option JsonVal :=
    match env.fetchPre minutes with
    | Except.ok pre => some (mcpOrdersCount pre)
    | Except.error _ => none
  if (match before with
      | some v => v.pyEqZero
      | none => false) then
    McpSelfHealResp.noAction "no_action_needed"
      "Orders service has 0 errors in the last period." steps0
  else
    let restartRes := run_kubectl env.exec (restartArgs deployment namespc)
    let rolloutRes := run_kubectl env.exec
      (rolloutStatusArgs deployment namespc timeout_seconds)
    let after : Option JsonVal :=
      match env.fetchPost minutes with
      | Except.ok post => some (mcpOrdersCount post)
      | Except.error _ => none
    let steps1 : McpSteps :=
      match env.fetchPost minutes with
      | Except.ok post =>
        { steps0 with restart := some restartRes,
                      rollout_status := some rolloutRes,
                      post_error_summary := some post }
      | Except.error e =>
        { steps0 with restart := some restartRes,
                      rollout_status := some rolloutRes,
                      post_error_summary_error := some e }
    let final :=
      match after with
      | some v => if v.pyGtZero then "completed_but_errors_still_present"
                  else "completed"
      | none => "completed"
    McpSelfHealResp.run final deployment namespc before after steps1

/-- The error-summary response on which the wrapper and the Router diverge:
orders has five errors. -/
def exampleSummary : ErrorSummaryResp :=
  ⟨30, [("catalog", 0), ("orders", 5), ("users", 0)]⟩

/-- A backend producing `exampleSummary` through the bot's aggregator. -/
def fiveOrdersBackend : String → Except String QueryResult :=
  fun svc => Except.ok ⟨"Complete",
    [[("errors", if svc == "orders" then 5 else 0)]]⟩

def mcpEnvEx : McpEnv :=
  ⟨fun _ => Except.ok exampleSummary, fun _ => Except.ok exampleSummary, okExec⟩

def botEnvEx : Env := ⟨fiveOrdersBackend, fiveOrdersBackend, okExec⟩

/-- C6: at the same aggregator evidence (`exampleSummary`, in which the
orders service has 5 errors), the MCP wrapper and the Router-facing self-heal
diverge: the bot extracts 5 from `summary.orders` and proceeds through
restart/wait/re-check to `"completed_but_errors_still_present"`, while the
wrapper extracts 0 from the absent top-level `"orders"` key and returns
`"no_action_needed"` in its three-key record shape — contradicting the
wrapper's own docstring ("If orders has non-zero errors: restart ...") and
the claim that both produce the same structured result. -/
theorem mcp_selfheal_divergence :
    error_summary botEnvEx.pre 30 = Except.ok exampleSummary
    ∧ ordersCount exampleSummary = 5
    ∧ mcpOrdersCount exampleSummary = JsonVal.num 0
    ∧ (self_heal_orders mcpEnvEx "orders-deployment" "cloudshop" 30 120).statusOf
        = "no_action_needed"
    ∧ (self_heal_orders mcpEnvEx "orders-deployment" "cloudshop" 30 120).isNoAction
        = true
    ∧ (k8s_self_heal_orders botEnvEx "orders-deployment" "cloudshop" 30 120).1.status
        = "completed_but_errors_still_present"
    ∧ (k8s_self_heal_orders botEnvEx "orders-deployment" "cloudshop" 30 120).2 =
        [Call.errorSummaryCall "pre",
         Call.kubectl (restartArgs "orders-deployment" "cloudshop"),
         Call.kubectl (rolloutStatusArgs "orders-deployment" "cloudshop" 120),
         Call.errorSummaryCall "post"] := by
  exact ⟨rfl, rfl, rfl, rfl, rfl, rfl, rfl⟩

/-! ## Intent Router (`ai_chat`, app.py:490-813) -/

/-- Python's substring test `needle in hay` over character lists. -/
def isSub (needle : List Char) : List Char → Bool
  | [] => needle.isEmpty
  | c :: rest => needle.isPrefixOf (c :: rest) || isSub needle rest

/-- Python `needle in hay` on strings. -/
def pyIn (needle hay : String) : Bool := isSub needle.data hay.data

/-- Python `str.strip()`: drop leading and trailing whitespace. -/
def pyStrip (l : List Char) : List Char :=
  ((l.dropWhile Char.isWhitespace).reverse.dropWhile Char.isWhitespace).reverse

/-- `(req.question or "").lower().strip()` (app.py:497). -/
def normalizeText (s : String) : String :=
  String.mk (pyStrip (s.data.map Char.toLower))

/-- Decimal value of a digit run. -/
def natOfDigits (ds : List Char) : Nat :=
  ds.foldl (fun acc c => acc * 10 + (c.toNat - 48)) 0

/-- First maximal digit run in the text, as matched by
`re.search(r"(\d+)\s*(min|mins|minute|minutes)?", q)` — the unit suffix is
optional, so the match is simply the first run of digits. -/
def firstNumber : List Char → Option Nat
  | [] => none
  | c :: rest =>
    if c.isDigit then some (natOfDigits (c :: rest.takeWhile Char.isDigit))
    else firstNumber rest

/-- `minutes = int(m.group(1)) if m else 30` (app.py:500-501). -/
def extractMinutes (q : String) : Nat := (firstNumber q.data).getD 30

/-- `replicas = int(replicas_match.group(1)) if replicas_match else 2`
(app.py:692-693); the `(replica|replicas)?` suffix is optional, so this too
is the first digit run. -/
def extractReplicas (q : String) : Nat := (firstNumber q.data).getD 2

/-- Service-name resolution inside router predicate 2 (app.py:544-550),
in the fixed checking order orders, catalog, users. -/
def resolveService (q : String) : Option String :=
  if pyIn "orders" q then some "orders"
  else if pyIn "catalog" q then some "catalog"
  else if pyIn "users" q || pyIn "user service" q then some "users"
  else none

/-- `_guess_deployment_from_question` (app.py:478-487). -/
def guessDeployment (q : String) : String :=
  if pyIn "orders" q then "orders-deployment"
  else if pyIn "catalog" q then "catalog-deployment"
  else if pyIn "users" q || pyIn "user service" q then "users-deployment"
  else "orders-deployment"

/-- The classified intent plus extracted parameters: which helper operation
`ai_chat` dispatches to and with which arguments (the constants mirror the
literal arguments at each call site, e.g. `limit = 5`, namespace
`"cloudshop"`, rollout timeout 120). -/
inductive RouterIntent where
  | errorSummary (minutes : Nat)
  | serviceErrors (service : String) (minutes limit : Nat)
  | topEndpoints (minutes limit : Nat)
  | podStatus (namespc : String)
  | restartDeployment (deployment namespc : String)
  | scaleDeployment (deployment : String) (replicas : Nat) (namespc : String)
  | rolloutStatus (deployment namespc : String) (timeout_seconds : Nat)
  | selfHeal
  | unknown
deriving DecidableEq

/-- The dispatch decision of `ai_chat` (app.py:490-813) on the normalized
question text: the nested `if` chain evaluated top to bottom.  Branch 2 of
the source first tests for "errors"/"error" and only returns when a service
name also resolved, so its effective guard is the conjunction and
error-mentioning text without a service name falls through.  The function is
total: text matching no branch yields `unknown` (the static help response),
never an exception. -/
def routeIntent (q : String) : RouterIntent :=
  let minutes := extractMinutes q
  if pyIn "error" q && (pyIn "summary" q || pyIn "overall" q || pyIn "system" q) then
    RouterIntent.errorSummary minutes
  else if (pyIn "errors" q || pyIn "error" q) && (resolveService q).isSome then
    RouterIntent.serviceErrors ((resolveService q).getD "") minutes 5
  else if pyIn "top" q && (pyIn "endpoint" q || pyIn "endpoints" q
      || pyIn "traffic" q || pyIn "requests" q) then
    RouterIntent.topEndpoints minutes 5
  else if (pyIn "pod" q || pyIn "pods" q || pyIn "kubernetes" q || pyIn "k8s" q)
      && (pyIn "status" q || pyIn "health" q || pyIn "ready" q) then
    RouterIntent.podStatus "cloudshop"
  else if pyIn "restart" q && (pyIn "deployment" q || pyIn "service" q) then
    RouterIntent.restartDeployment (guessDeployment q) "cloudshop"
  else if pyIn "scale" q && (pyIn "deployment" q || pyIn "service" q) then
    RouterIntent.scaleDeployment (guessDeployment q) (extractReplicas q) "cloudshop"
  else if pyIn "rollout status" q || pyIn "deployment status" q then
    RouterIntent.rolloutStatus (guessDeployment q) "cloudshop" 120
  else if pyIn "self heal" q || pyIn "self-heal" q || pyIn "fix orders" q
      || pyIn "restart orders" q then
    RouterIntent.selfHeal
  else
    RouterIntent.unknown

/-- The router applied as `ai_chat` applies it: to the lowercased, stripped
question. -/
def ai_chat_route (question : String) : RouterIntent :=
  routeIntent (normalizeText question)

/-- The bare intent tag, without extracted parameters. -/
inductive IntentTag where
  | errorSummary | serviceErrors | topEndpoints | podStatus
  | restartDeployment | scaleDeployment | rolloutStatus | selfHeal | unknown
deriving DecidableEq

def tagOf : RouterIntent → IntentTag
  | RouterIntent.errorSummary _ => IntentTag.errorSummary
  | RouterIntent.serviceErrors _ _ _ => IntentTag.serviceErrors
  | RouterIntent.topEndpoints _ _ => IntentTag.topEndpoints
  | RouterIntent.podStatus _ => IntentTag.podStatus
  | RouterIntent.restartDeployment _ _ => IntentTag.restartDeployment
  | RouterIntent.scaleDeployment _ _ _ => IntentTag.scaleDeployment
  | RouterIntent.rolloutStatus _ _ _ => IntentTag.rolloutStatus
  | RouterIntent.selfHeal => IntentTag.selfHeal
  | RouterIntent.unknown => IntentTag.unknown

/-- Spec-side rendering of §4.4: the Router's matching policy as an explicit
ordered list of (predicate, intent) pairs. -/
def specPredicates (q : String) : List (Bool × IntentTag) :=
  [(pyIn "error" q && (pyIn "summary" q || pyIn "overall" q || pyIn "system" q),
    IntentTag.errorSummary),
   ((pyIn "errors" q || pyIn "error" q) && (resolveService q).isSome,
    IntentTag.serviceErrors),
   (pyIn "top" q && (pyIn "endpoint" q || pyIn "endpoints" q
      || pyIn "traffic" q || pyIn "requests" q),
    IntentTag.topEndpoints),
   ((pyIn "pod" q || pyIn "pods" q || pyIn "kubernetes" q || pyIn "k8s" q)
      && (pyIn "status" q || pyIn "health" q || pyIn "ready" q),
    IntentTag.podStatus),
   (pyIn "restart" q && (pyIn "deployment" q || pyIn "service" q),
    IntentTag.restartDeployment),
   (pyIn "scale" q && (pyIn "deployment" q || pyIn "service" q),
    IntentTag.scaleDeployment),
   (pyIn "rollout status" q || pyIn "deployment status" q,
    IntentTag.rolloutStatus),
   (pyIn "self heal" q || pyIn "self-heal" q || pyIn "fix orders" q
      || pyIn "restart orders" q,
    IntentTag.selfHeal)]

/-- Spec-side dispatch: the first predicate (in listed order) that holds
determines the intent; none matching yields `unknown`. -/
def firstMatchTag (q : String) : IntentTag :=
  match (specPredicates q).find? (fun p => p.1) with
  | some p => p.2
  | none => IntentTag.unknown

/-- `True` when some router predicate matches the text. -/
def specMatches (q : String) : Bool := (specPredicates q).any (fun p => p.1)

/-! ## C7 -/

/-- C7: the router evaluates its predicates in the fixed listed order with
first-match-wins semantics — the nested dispatch of `ai_chat` agrees with the
spec's ordered-predicate-list dispatch on every text; in particular
"show error summary for orders" (which satisfies predicates 1 and 2) yields
`errorSummary`, and "any error today" (which mentions an error but names no
service and fails predicate 1) falls through predicate 2 to the `unknown`
default. -/
theorem router_first_match_wins :
    (∀ q : String, tagOf (routeIntent q) = firstMatchTag q)
    ∧ tagOf (routeIntent "show error summary for orders")
        = IntentTag.errorSummary
    ∧ tagOf (ai_chat_route "Show Error Summary for Orders")
        = IntentTag.errorSummary
    ∧ tagOf (routeIntent "any error today") = IntentTag.unknown := by
  refine ⟨?_, by decide, by decide, by decide⟩
  intro q
  simp only [routeIntent, firstMatchTag, specPredicates]
  cases h1 : (pyIn "error" q && (pyIn "summary" q || pyIn "overall" q || pyIn "system" q))
  · cases h2 : ((pyIn "errors" q || pyIn "error" q) && (resolveService q).isSome)
    · cases h3 : (pyIn "top" q && (pyIn "endpoint" q || pyIn "endpoints" q
          || pyIn "traffic" q || pyIn "requests" q))
      · cases h4 : ((pyIn "pod" q || pyIn "pods" q || pyIn "kubernetes" q || pyIn "k8s" q)
            && (pyIn "status" q || pyIn "health" q || pyIn "ready" q))
        · cases h5 : (pyIn "restart" q && (pyIn "deployment" q || pyIn "service" q))
          · cases h6 : (pyIn "scale" q && (pyIn "deployment" q || pyIn "service" q))
            · cases h7 : (pyIn "rollout status" q || pyIn "deployment status" q)
              · cases h8 : (pyIn "self heal" q || pyIn "self-heal" q || pyIn "fix orders" q
                    || pyIn "restart orders" q)
                · simp [List.find?, tagOf]
                · simp [List.find?, tagOf]
              · simp [List.find?, tagOf]
            · simp [List.find?, tagOf]
          · simp [List.find?, tagOf]
        · simp [List.find?, tagOf]
      · simp [List.find?, tagOf]
    · simp [List.find?, tagOf]
  · simp [List.find?, tagOf]

/-! ## C8 -/

theorem firstNumber_none : ∀ (l : List Char), (∀ c ∈ l, c.isDigit = false) →
    firstNumber l = none
  | [], _ => rfl
  | c :: rest, h => by
    have hc := h c (List.mem_cons_self c rest)
    have ih := firstNumber_none rest (fun x hx => h x (List.mem_cons_of_mem c hx))
    simp [firstNumber, hc, ih]

theorem takeWhile_digits_append : ∀ (rest b : List Char),
    (∀ c ∈ rest, c.isDigit = true) →
    (∀ c, b.head? = some c → c.isDigit = false) →
    (rest ++ b).takeWhile Char.isDigit = rest
  | [], b, _, hb => by
    cases b with
    | nil => rfl
    | cons c t => simp [List.takeWhile, hb c rfl]
  | c :: rest, b, hr, hb => by
    have hc : c.isDigit = true := hr c (List.mem_cons_self c rest)
    have ih := takeWhile_digits_append rest b
      (fun x hx => hr x (List.mem_cons_of_mem c hx)) hb
    simp [List.takeWhile, hc, ih]

theorem firstNumber_skip : ∀ (a l : List Char), (∀ c ∈ a, c.isDigit = false) →
    firstNumber (a ++ l) = firstNumber l
  | [], _, _ => rfl
  | c :: a, l, h => by
    have hc : c.isDigit = false := h c (List.mem_cons_self c a)
    have ih := firstNumber_skip a l (fun x hx => h x (List.mem_cons_of_mem c hx))
    simp [firstNumber, hc, ih]

/-- `help_text` (app.py:778-806): the static capability listing returned by
the fallback branch. -/
def help_text : String :=
  "I didn’t quite understand that request yet.\n\n"
  ++ "Here are the AI-Ops tools I support:\n\n"
  ++ "- error_summary: Get error counts per service for the last N minutes.\n"
  ++ "  (wraps GET /logs/error_summary?minutes=...)\n"
  ++ "- top_endpoints: Get top endpoints by traffic for the last N minutes.\n"
  ++ "  (wraps GET /logs/top_endpoints?minutes=&limit=)\n"
  ++ "- service_errors: Get error events for a specific service.\n"
  ++ "  (wraps GET /logs/service_errors?service=&minutes=)\n"
  ++ "- restart_deployment: Restart a Kubernetes deployment.\n"
  ++ "  (kubectl rollout restart deployment/<deployment> -n <namespace>)\n"
  ++ "- scale_deployment: Scale a deployment to N replicas.\n"
  ++ "  (kubectl scale deployment/<deployment> --replicas=<replicas> -n <namespace>)\n"
  ++ "- rollout_status: Get rollout status for a deployment.\n"
  ++ "  (kubectl rollout status deployment/<deployment> -n <namespace> --timeout=<seconds>s)\n"
  ++ "- pod_status: Get status of all pods in a namespace.\n"
  ++ "  (kubectl get pods -n <namespace> -o json)\n"
  ++ "- self_heal_orders: Automatic self-heal for the orders service.\n"
  ++ "  (check errors → restart → wait for rollout → re-check errors)\n\n"
  ++ "Try questions like:\n"
  ++ "- \"Show error summary for last 30 minutes\"\n"
  ++ "- \"Show orders service errors\"\n"
  ++ "- \"What are the top endpoints?\"\n"
  ++ "- \"Check pod status\"\n"
  ++ "- \"Restart orders deployment\"\n"
  ++ "- \"Scale orders deployment to 3 replicas\"\n"
  ++ "- \"Check rollout status of orders deployment\"\n"
  ++ "- \"Self heal orders\"\n"

/-- The fallback response of branch 9 (app.py:808-813): `question`,
`intent = "unknown"`, `answer = help_text` (and an empty `data` object). -/
structure UnknownResp where
  question : String
  intent : String
  answer : String
deriving DecidableEq

def ai_chat_unknown_response (question : String) : UnknownResp :=
  ⟨question, "unknown", help_text⟩

/-- C8: for every question whose normalized text matches no router predicate,
the router yields the `unknown` intent, and the returned payload is the
static help response (intent `"unknown"`, answer `help_text`); the embedding
is a total function, so no exception is possible.  The lookback-minutes
parameter is the first digit run in the text when one is present and
defaults to 30 otherwise. -/
theorem router_unknown_and_minutes_default :
    (∀ q : String, specMatches (normalizeText q) = false →
        ai_chat_route q = RouterIntent.unknown
        ∧ (ai_chat_unknown_response q).intent = "unknown"
        ∧ (ai_chat_unknown_response q).answer = help_text)
    ∧ (∀ q : String, (∀ c ∈ q.data, c.isDigit = false) → extractMinutes q = 30)
    ∧ (∀ (a rest b : List Char) (d : Char), d.isDigit = true →
        (∀ c ∈ a, c.isDigit = false) → (∀ c ∈ rest, c.isDigit = true) →
        (∀ c, b.head? = some c → c.isDigit = false) →
        extractMinutes (String.mk (a ++ (d :: rest) ++ b))
          = natOfDigits (d :: rest)) := by
  refine ⟨?_, ?_, ?_⟩
  · intro q h
    refine ⟨?_, rfl, rfl⟩
    unfold specMatches specPredicates at h
    simp only [List.any_cons, List.any_nil, Bool.or_eq_false_iff] at h
    obtain ⟨h1, h2, h3, h4, h5, h6, h7, h8, -⟩ := h
    unfold ai_chat_route routeIntent
    simp [h1, h2, h3, h4, h5, h6, h7, h8]
  · intro q h
    unfold extractMinutes
    rw [firstNumber_none q.data h]
    rfl
  · intro a rest b d hd ha hrest hb
    unfold extractMinutes
    show (firstNumber (a ++ (d :: rest) ++ b)).getD 30 = natOfDigits (d :: rest)
    rw [List.append_assoc, firstNumber_skip a _ ha]
    show (firstNumber (d :: (rest ++ b))).getD 30 = natOfDigits (d :: rest)
    simp [firstNumber, hd, takeWhile_digits_append rest b hrest hb]

theorem router_unknown_and_minutes_default_witness :
    ai_chat_route "what is the weather" = RouterIntent.unknown
    ∧ extractMinutes "show error summary" = 30
    ∧ extractMinutes (String.mk ("last ".data ++ ("45".data) ++ " minutes".data))
        = natOfDigits "45".data
    ∧ natOfDigits "45".data = 45 :=
  ⟨(router_unknown_and_minutes_default.1 "what is the weather" (by decide)).1,
   router_unknown_and_minutes_default.2.1 "show error summary" (by decide),
   (by
      have h := router_unknown_and_minutes_default.2.2 "last ".data "5".data
        " minutes".data '4' (by decide) (by decide) (by decide) (by decide)
      exact h),
   by decide⟩

/-! ## C9: the Evidence Query Client's poll loop -/

/-- The `while True` loop of `_run_logs_query` (app.py:45-49) over a poll
sequence (`poll n` is the `get_query_results` response to the n-th poll),
polling from
index `i` with a bound `b` by which a terminal status is known to occur:
return the first response whose status is in
`("Complete", "Failed", "Cancelled")`. -/
def getFirstTerminal (poll : Nat → QueryResult) : Nat → Nat → QueryResult
  | i, 0 => poll i
  | i, b + 1 =>
    if isTerminalStatus (poll i).status = true then poll i
    else getFirstTerminal poll (i + 1) b

/-- `_run_logs_query` under the precondition that the backend eventually
reports a terminal status: the loop's value is the first terminal poll
response.  Without the precondition the Python loop does not terminate
(the known unbounded-polling risk); the hypothesis is exactly the claim's
precondition. -/
def run_logs_query (poll : Nat → QueryResult)
    (h : ∃ n, isTerminalStatus (poll n).status = true) : QueryResult :=
  getFirstTerminal poll 0 (Nat.find h)

theorem getFirstTerminal_of_terminal (poll : Nat → QueryResult) :
    ∀ (b i : Nat), isTerminalStatus (poll (i + b)).status = true →
      isTerminalStatus (getFirstTerminal poll i b).status = true := by
  intro b
  induction b with
  | zero => intro i h; simpa [getFirstTerminal] using h
  | succ n ih =>
    intro i h
    by_cases hc : isTerminalStatus (poll i).status = true
    · simp [getFirstTerminal, hc]
    · simp only [getFirstTerminal, if_neg hc]
      exact ih (i + 1) (by rw [show i + 1 + n = i + (n + 1) by omega]; exact h)

theorem getFirstTerminal_min (poll : Nat → QueryResult) :
    ∀ (b i : Nat), (∀ j, j < b → isTerminalStatus (poll (i + j)).status = false) →
      getFirstTerminal poll i b = poll (i + b) := by
  intro b
  induction b with
  | zero => intro i _; rfl
  | succ n ih =>
    intro i h
    have h0 : isTerminalStatus (poll i).status = false := by
      simpa using h 0 (Nat.succ_pos n)
    simp only [getFirstTerminal, h0, if_neg (by simp [h0] : ¬isTerminalStatus (poll i).status = true)]
    rw [ih (i + 1) (fun j hj => by
      rw [show i + 1 + j = i + (j + 1) by omega]
      exact h (j + 1) (by omega))]
    rw [show i + 1 + n = i + (n + 1) by omega]
    simp

/-- C9: under the precondition that the backend eventually reports a status
in (Complete, Failed, Cancelled) for the submitted query, the poll loop of
`_run_logs_query` terminates and returns exactly the first terminal poll
response; the status of the returned result is terminal and in particular is
never "Running". -/
theorem run_logs_query_terminates (poll : Nat → QueryResult)
    (h : ∃ n, isTerminalStatus (poll n).status = true) :
    run_logs_query poll h = poll (Nat.find h)
    ∧ isTerminalStatus (run_logs_query poll h).status = true
    ∧ (run_logs_query poll h).status ≠ "Running"
    ∧ ∀ m, m < Nat.find h → isTerminalStatus (poll m).status = false := by
  have hmin : ∀ m, m < Nat.find h → isTerminalStatus (poll m).status = false := by
    intro m hm
    have := Nat.find_min h hm
    revert this
    cases isTerminalStatus (poll m).status <;> simp
  have heq : run_logs_query poll h = poll (Nat.find h) := by
    unfold run_logs_query
    rw [getFirstTerminal_min poll (Nat.find h) 0 (fun j hj => by simpa using hmin j hj)]
    simp
  have hterm : isTerminalStatus (run_logs_query poll h).status = true := by
    rw [heq]; exact Nat.find_spec h
  refine ⟨heq, hterm, ?_, hmin⟩
  intro hr
  rw [hr] at hterm
  simp [isTerminalStatus] at hterm

/-- A poll sequence that runs twice and then completes. -/
def pollEx : Nat → QueryResult :=
  fun n => if n < 2 then ⟨"Running", []⟩ else ⟨"Complete", []⟩

theorem pollEx_terminal : ∃ n, isTerminalStatus (pollEx n).status = true :=
  ⟨2, by decide⟩

theorem run_logs_query_terminates_witness :
    isTerminalStatus (run_logs_query pollEx pollEx_terminal).status = true
    ∧ (run_logs_query pollEx pollEx_terminal).status ≠ "Running" :=
  ⟨(run_logs_query_terminates pollEx pollEx_terminal).2.1,
   (run_logs_query_terminates pollEx pollEx_terminal).2.2.1⟩
